import Mathlib

set_option autoImplicit false

/-!
Shallow embedding of the WhatsApp REST wrapper in `src/index.js`.

The program is a single-threaded Express server over the Baileys WhatsApp
client.  Its mutable singletons (`sock`, `connectionState`, `chats`,
`messagesStore`) are embedded as a `ServerState` record; each HTTP handler
becomes a pure function from the prior state (plus the results of the awaited
external-client calls, passed in as explicit parameters) to a response and a
new state.  JavaScript truthiness on optional strings (`undefined`, `null`
and `""` are falsy) is modelled by `jsTruthyStr`; JavaScript `a || b` chains
on such values become `jsOr` / `jsOrString`.  Timing (the 500 ms poll delay,
the 2 s readiness delay) is kept only as named constants; the poll loop's
successive reads of the shared `connectionState` are modelled by a stream
`Nat → ConnectionState` giving the state observed at each loop iteration,
which is faithful because the handler can only observe state changes at its
`await` suspension points.
-/

/-- Truthiness of a JavaScript value that is either a string or absent
(`undefined` / `null`): absent and the empty string are falsy. -/
def jsTruthyStr : Option String → Bool
  | none => false
  | some s => !(s == "")

/-- JavaScript `a || b` restricted to optional strings: take `a` when it is
truthy, otherwise `b`. -/
def jsOr (a b : Option String) : Option String :=
  if jsTruthyStr a then a else b

/-- JavaScript `a || d` where the fallback `d` is a literal non-empty string,
so the result is always a plain string. -/
def jsOrString (a : Option String) (d : String) : String :=
  if jsTruthyStr a then a.getD d else d

/-- Embedding of `phoneNumber.replace(/\D/g, '')` from `src/index.js:252`:
remove every non-digit character. -/
def cleanPhone (s : String) : String :=
  String.mk (s.toList.filter Char.isDigit)

/-- Characters of the first segment of `s.split('@')`: everything before the
first `'@'`, or the whole string when there is none. -/
def takeBeforeAt : List Char → List Char
  | [] => []
  | c :: rest => if c = '@' then [] else c :: takeBeforeAt rest

/-- Embedding of `chatId.split('@')[0]` from `src/index.js:207`. -/
def jidName (chatId : String) : String :=
  String.mk (takeBeforeAt chatId.toList)

/-- Embedding of JavaScript `s.endsWith(t)`. -/
def strEndsWith (s t : String) : Bool :=
  let sl := s.toList
  let tl := t.toList
  decide (tl.length ≤ sl.length) && (sl.drop (sl.length - tl.length) == tl)

/-- The `connectionState` record of `src/index.js:29`. -/
structure ConnectionState where
  connected : Bool
  connecting : Bool
  pairingCode : Option String
  phoneNumber : Option String
  error : Option String
  qr : Option String
deriving DecidableEq

/-- The initial all-false/null value of `connectionState` (`src/index.js:29`),
which is also the value the disconnect endpoint resets to
(`src/index.js:454`). -/
def initialConnectionState : ConnectionState :=
  { connected := false, connecting := false, pairingCode := none,
    phoneNumber := none, error := none, qr := none }

/-- The `lastMessage` sub-record stored on a chat (`src/index.js:199`). -/
structure LastMessage where
  body : String
  timestamp : Nat
deriving DecidableEq

/-- A chat entry of the in-memory `chats` list (`src/index.js:180` and
`src/index.js:205`). -/
structure Chat where
  id : String
  name : String
  isGroup : Bool
  timestamp : Nat
  lastMessage : Option LastMessage
deriving DecidableEq

/-- A message record of `messagesStore`.  Inbound records
(`src/index.js:125`) carry all six fields; outbound records
(`src/index.js:384`) omit the `from` and `type` properties, modelled as
`none`.  The JavaScript `from` property is named `msgFrom` because `from` is
reserved in Lean. -/
structure MessageData where
  id : String
  body : String
  msgFrom : Option String
  timestamp : Nat
  isOutgoing : Bool
  type : Option String
deriving DecidableEq

/-- A contact as produced by `GET /api/contacts` (`src/index.js:421`). -/
structure Contact where
  id : String
  name : String
  number : String
  isGroup : Bool
deriving DecidableEq

/-- The in-memory `messagesStore` object (`src/index.js:50`): a mapping from
chat id to that chat's list of cached messages, embedded as an association
list keyed by the JavaScript object's own properties. -/
abbrev MessagesStore := List (String × List MessageData)

/-- Reading `messagesStore[chatId]`: `some` the stored list when the key is
present, `none` when absent. -/
def storeLookup : MessagesStore → String → Option (List MessageData)
  | [], _ => none
  | (k2, l) :: rest, k => if k2 == k then some l else storeLookup rest k

/-- Embedding of the store-append idiom of `src/index.js:121` and
`src/index.js:392`: create the entry as `[]` when absent, then `push` the
record onto its list. -/
def storePush : MessagesStore → String → MessageData → MessagesStore
  | [], k, m => [(k, [m])]
  | (k2, l) :: rest, k, m =>
    if k2 == k then (k2, l ++ [m]) :: rest
    else (k2, l) :: storePush rest k m

/-- The chat entry built for a newly-seen chat id by `updateChatWithMessage`
(`src/index.js:205`). -/
def mkChatFromMessage (chatId : String) (m : MessageData) : Chat :=
  { id := chatId, name := jidName chatId, isGroup := strEndsWith chatId "@g.us",
    timestamp := m.timestamp, lastMessage := some ⟨m.body, m.timestamp⟩ }

/-- In-place mutation of the first chat whose id matches, as performed on the
result of `chats.find` in `src/index.js:198`: its `lastMessage` and
`timestamp` are overwritten, its position and every other entry are kept. -/
def updateExistingChat : List Chat → String → MessageData → List Chat
  | [], _, _ => []
  | c :: rest, chatId, m =>
    if c.id == chatId then
      { c with lastMessage := some ⟨m.body, m.timestamp⟩, timestamp := m.timestamp } :: rest
    else c :: updateExistingChat rest chatId m

/-- Embedding of `updateChatWithMessage` (`src/index.js:195`): update the
existing entry in place when the id is already present, otherwise `unshift` a
new entry at the front of the list. -/
def updateChatWithMessage (chats : List Chat) (chatId : String) (m : MessageData) : List Chat :=
  if chats.any fun c => c.id == chatId then updateExistingChat chats chatId m
  else mkChatFromMessage chatId m :: chats

/-- The content object `msg.message` of an inbound Baileys message.  Only the
fields the program reads are modelled; `firstKey` stands for
`Object.keys(msg.message)[0]`, the first own property of that object, which
the program stores as the message `type` (`src/index.js:134`). -/
structure MsgContent where
  conversation : Option String
  extendedTextMessageText : Option String
  imageMessageCaption : Option String
  firstKey : Option String
deriving DecidableEq

/-- An inbound Baileys message as read by the `messages.upsert` handler:
`msg.key.remoteJid`, `msg.key.id`, `msg.key.fromMe`, `msg.messageTimestamp`
and the optional content object. -/
structure WAMessage where
  keyRemoteJid : String
  keyId : String
  keyFromMe : Bool
  messageTimestamp : Nat
  message : Option MsgContent
deriving DecidableEq

/-- Embedding of the body extraction of `src/index.js:127`:
`msg.message?.conversation || msg.message?.extendedTextMessage?.text ||
msg.message?.imageMessage?.caption || '[Media]'`. -/
def extractBody (mc : Option MsgContent) : String :=
  jsOrString
    (jsOr (jsOr (mc.bind MsgContent.conversation) (mc.bind MsgContent.extendedTextMessageText))
      (mc.bind MsgContent.imageMessageCaption))
    "[Media]"

/-- The `messageData` record the `messages.upsert` handler builds for one
inbound message (`src/index.js:125`). -/
def inboundMessageData (msg : WAMessage) : MessageData :=
  { id := msg.keyId, body := extractBody msg.message, msgFrom := some msg.keyRemoteJid,
    timestamp := msg.messageTimestamp, isOutgoing := msg.keyFromMe,
    type := msg.message.bind MsgContent.firstKey }

/-- The whole mutable server state: the client handle (`sock`, modelled only
by its presence), `connectionState`, `chats` and `messagesStore`
(`src/index.js:28`). -/
structure ServerState where
  sock : Bool
  connectionState : ConnectionState
  chats : List Chat
  messagesStore : MessagesStore
deriving DecidableEq

/-- Processing of one inbound message inside the `messages.upsert` loop
(`src/index.js:118`): append the record to the chat's message list and update
the chat list. -/
def ingestMessage (s : ServerState) (msg : WAMessage) : ServerState :=
  let md := inboundMessageData msg
  { s with messagesStore := storePush s.messagesStore msg.keyRemoteJid md,
           chats := updateChatWithMessage s.chats msg.keyRemoteJid md }

/-- Embedding of the `messages.upsert` event handler (`src/index.js:116`):
only batches tagged `notify` are processed, in order. -/
def handleUpsert (s : ServerState) (messages : List WAMessage) (upsertType : String) : ServerState :=
  if upsertType = "notify" then messages.foldl ingestMessage s else s

/-- The chat-list projection of processing an inbound batch: fold
`updateChatWithMessage` over the (chat id, record) pairs in order. -/
def processBatch (chats : List Chat) (batch : List (String × MessageData)) : List Chat :=
  batch.foldl (fun cs p => updateChatWithMessage cs p.1 p.2) chats

/-- The decidable ordering property named by the spec for the chat list:
every entry's last-activity timestamp is at least that of every later
entry (most-recently-active first). -/
def mostRecentlyActiveFirst : List Chat → Bool
  | [] => true
  | c :: rest => (rest.all fun d => d.timestamp ≤ c.timestamp) && mostRecentlyActiveFirst rest

/-- Responses of the chat, message, contact and disconnect endpoints, by
constructor: HTTP status and body shape are recovered by the functions
below. -/
inductive ApiResponse where
  | notConnected
  | okChats (chats : List Chat)
  | okMessages (messages : List MessageData)
  | okContacts (contacts : List Contact)
  | okSent (message : MessageData)
  | okDisconnected (message : String)
  | badRequest (message : String)
  | serverError (message : String)
deriving DecidableEq

/-- HTTP status code carried by each `ApiResponse`. -/
def ApiResponse.statusCode : ApiResponse → Nat
  | .notConnected => 503
  | .okChats _ => 200
  | .okMessages _ => 200
  | .okContacts _ => 200
  | .okSent _ => 200
  | .okDisconnected _ => 200
  | .badRequest _ => 400
  | .serverError _ => 500

/-- The `success` boolean of each `ApiResponse` body. -/
def ApiResponse.success : ApiResponse → Bool
  | .okChats _ => true
  | .okMessages _ => true
  | .okContacts _ => true
  | .okSent _ => true
  | .okDisconnected _ => true
  | _ => false

/-- The `message` string field of each `ApiResponse` body, when present. -/
def ApiResponse.messageText : ApiResponse → Option String
  | .notConnected => some "WhatsApp not connected"
  | .okDisconnected m => some m
  | .badRequest m => some m
  | .serverError m => some m
  | _ => none

/-- Embedding of `GET /api/chats` (`src/index.js:319`): a 503 guard, then the
cached chat list.  The handler never touches the protocol client. -/
def getChatsHandler (s : ServerState) : ApiResponse × ServerState :=
  if !s.connectionState.connected then (.notConnected, s)
  else (.okChats s.chats, s)

/-- Embedding of `GET /api/chats/:chatId/messages` (`src/index.js:334`) after
percent-decoding of the path parameter: a 503 guard, then the cached list or
`[]`.  The handler never touches the protocol client. -/
def getMessagesHandler (s : ServerState) (decodedChatId : String) : ApiResponse × ServerState :=
  if !s.connectionState.connected then (.notConnected, s)
  else (.okMessages ((storeLookup s.messagesStore decodedChatId).getD []), s)

/-- Embedding of `GET /api/contacts` (`src/index.js:410`): a 503 guard, then
the chat list re-shaped as contacts.  The handler never touches the protocol
client. -/
def getContactsHandler (s : ServerState) : ApiResponse × ServerState :=
  if !s.connectionState.connected then (.notConnected, s)
  else
    (.okContacts (s.chats.map fun c => ⟨c.id, c.name, jidName c.id, c.isGroup⟩), s)

/-- Embedding of `POST /api/chats/:chatId/messages` (`src/index.js:362`).
The awaited `sock.sendMessage` call is passed in as `sendResult` (the
client-assigned `sentMessage.key.id` on success, the thrown error message on
failure), and `Math.floor(Date.now() / 1000)` as `now`.  The third component
records whether the protocol client was invoked. -/
def sendMessageHandler (s : ServerState) (decodedChatId : String) (message : Option String)
    (sendResult : Except String String) (now : Nat) : ApiResponse × ServerState × Bool :=
  if !s.connectionState.connected then (.notConnected, s, false)
  else if !jsTruthyStr message then (.badRequest "Message content is required", s, false)
  else
    match sendResult with
    | .error e => (.serverError e, s, true)
    | .ok sentId =>
      let messageData : MessageData :=
        { id := sentId, body := message.getD "", msgFrom := none,
          timestamp := now, isOutgoing := true, type := none }
      (.okSent messageData,
       { s with messagesStore := storePush s.messagesStore decodedChatId messageData }, true)

/-- The state every field is reset to by a successful disconnect
(`src/index.js:454`): no client handle, initial connection state, empty
caches. -/
def resetServerState : ServerState :=
  { sock := false, connectionState := initialConnectionState, chats := [], messagesStore := [] }

/-- Embedding of `POST /api/disconnect` (`src/index.js:441`).  The awaited
`sock.logout()` call (made only when a client handle exists) is passed in as
`logoutResult`; when it throws, control jumps to the catch block, which
returns a 500 without performing any of the resets.  The session-directory
file operations are assumed to succeed. -/
def disconnectHandler (s : ServerState) (logoutResult : Except String Unit) :
    ApiResponse × ServerState :=
  if s.sock then
    match logoutResult with
    | .error e => (.serverError e, s)
    | .ok _ => (.okDisconnected "Disconnected successfully", resetServerState)
  else (.okDisconnected "Disconnected successfully", resetServerState)

/-- Responses of `POST /api/request-pairing-code`, by constructor. -/
inductive PairingResponse where
  | badRequest (message : String)
  | errorResp (message : String)
  | okConnected
  | okCode (pairingCode : String)
  | timeout
deriving DecidableEq

/-- HTTP status code carried by each `PairingResponse`. -/
def PairingResponse.statusCode : PairingResponse → Nat
  | .badRequest _ => 400
  | .errorResp _ => 500
  | .okConnected => 200
  | .okCode _ => 200
  | .timeout => 408

/-- The `success` boolean of each `PairingResponse` body. -/
def PairingResponse.success : PairingResponse → Bool
  | .okConnected => true
  | .okCode _ => true
  | _ => false

/-- The `maxAttempts` constant of the pairing poll loop (`src/index.js:271`). -/
def maxAttempts : Nat := 30

/-- The poll delay in milliseconds (`src/index.js:289`); timing itself is not
modelled. -/
def pollIntervalMs : Nat := 500

/-- Embedding of the validation-and-mutation prefix of
`POST /api/request-pairing-code` (`src/index.js:240`, up to the
`connectToWhatsApp` call): reject a missing phone number, then one whose
digit-stripped form is shorter than 10, each before any state mutation;
otherwise record the cleaned number and the connecting flags.  The `.ok` case
is the point at which the handler goes on to call `connectToWhatsApp`. -/
def pairingEntry (cs : ConnectionState) (phoneNumber : Option String) :
    Except (PairingResponse × ConnectionState) (String × ConnectionState) :=
  if !jsTruthyStr phoneNumber then
    .error (.badRequest "Phone number is required", cs)
  else
    let cp := cleanPhone (phoneNumber.getD "")
    if cp.length < 10 then .error (.badRequest "Invalid phone number format", cs)
    else .ok (cp, { cs with phoneNumber := some cp, connecting := true,
                            error := none, pairingCode := none })

/-- Embedding of the pairing poll loop (`src/index.js:270`).  The stream `σ`
gives the `connectionState` observed at each iteration (index `t`); `fuel` is
`maxAttempts - attempts`.  Mirroring the JavaScript left-to-right `while`
condition, the pairing code is inspected even on the exhausted iteration,
while the error and connected checks run only on iterations with fuel. -/
def pollPairing (σ : Nat → ConnectionState) : Nat → Nat → PairingResponse
  | t, 0 =>
    match (σ t).pairingCode with
    | some c => .okCode c
    | none => .timeout
  | t, f + 1 =>
    match (σ t).pairingCode with
    | some c => .okCode c
    | none =>
      match (σ t).error with
      | some e => .errorResp e
      | none => if (σ t).connected then .okConnected else pollPairing σ (t + 1) f

/-- The pairing poll as started by the endpoint: iteration 0, full fuel. -/
def requestPairingPoll (σ : Nat → ConnectionState) : PairingResponse :=
  pollPairing σ 0 maxAttempts

/-- A poll iteration observing neither a pairing code, nor an error, nor a
connected state: the loop sleeps and continues. -/
def pollQuiet (c : ConnectionState) : Prop :=
  c.pairingCode = none ∧ c.error = none ∧ c.connected = false

/-- A concrete connected prior state with a live client handle and non-empty
caches, used as input to the disconnect theorems. -/
def c1PriorState : ServerState :=
  { sock := true,
    connectionState := { connected := true, connecting := false, pairingCode := none,
                         phoneNumber := some "15551234567", error := none, qr := none },
    chats := [⟨"111@s.whatsapp.net", "111", false, 5, some ⟨"hi", 5⟩⟩],
    messagesStore := [("111@s.whatsapp.net",
      [⟨"m1", "hi", some "111@s.whatsapp.net", 5, false, some "conversation"⟩])] }

/-- A concrete observation stream on which the poll loop sees a recorded
error on its first iteration. -/
def c2Stream : Nat → ConnectionState :=
  fun _ => { connected := false, connecting := true, pairingCode := none,
             phoneNumber := some "15551234567", error := some "Connection Failure", qr := none }

/-- A concrete observation stream on which the poll loop never sees a code,
an error, or a connected state. -/
def c3Stream : Nat → ConnectionState :=
  fun _ => initialConnectionState

/-- A concrete disconnected state used as input to the 503-guard theorems. -/
def c9State : ServerState :=
  { sock := true,
    connectionState := { connected := false, connecting := true, pairingCode := none,
                         phoneNumber := some "15551234567", error := none, qr := none },
    chats := [], messagesStore := [] }

/-- A concrete connected state with empty caches. -/
def c10State : ServerState :=
  { sock := true,
    connectionState := { connected := true, connecting := false, pairingCode := none,
                         phoneNumber := some "15551234567", error := none, qr := none },
    chats := [], messagesStore := [] }

/-- A concrete inbound message record. -/
def c6msg1 : MessageData :=
  ⟨"m1", "hello", some "111@s.whatsapp.net", 1, false, some "conversation"⟩

/-- A second concrete inbound message record with a later timestamp. -/
def c6msg2 : MessageData :=
  ⟨"m2", "again", some "111@s.whatsapp.net", 2, false, some "conversation"⟩

/-- A concrete pre-existing chat entry. -/
def c7wChat : Chat := ⟨"222@s.whatsapp.net", "222", false, 1, none⟩

/-- The chat list produced by three inbound messages: chat 111 at time 1,
chat 222 at time 2, then chat 111 again at time 3. -/
def c7Result : List Chat :=
  updateChatWithMessage
    (updateChatWithMessage
      (updateChatWithMessage []
        "111@s.whatsapp.net" ⟨"m1", "one", some "111@s.whatsapp.net", 1, false, some "conversation"⟩)
      "222@s.whatsapp.net" ⟨"m2", "two", some "222@s.whatsapp.net", 2, false, some "conversation"⟩)
    "111@s.whatsapp.net" ⟨"m3", "three", some "111@s.whatsapp.net", 3, false, some "conversation"⟩

/-- A concrete inbound message content whose plain-text field is populated. -/
def c8Content : MsgContent := ⟨some "hi", some "ignored", none, some "conversation"⟩

/-- A concrete inbound message wrapping `c8Content`. -/
def c8Msg : WAMessage := ⟨"111@s.whatsapp.net", "A1", false, 7, some c8Content⟩

/-- Pushing onto a chat's message list appends exactly one record to that
chat's entry (creating it from the empty list when absent). -/
theorem storeLookup_push_self (st : MessagesStore) (k : String) (m : MessageData) :
    storeLookup (storePush st k m) k = some ((storeLookup st k).getD [] ++ [m]) := by
  induction st with
  | nil => simp [storePush, storeLookup]
  | cons p rest ih =>
    obtain ⟨k2, l⟩ := p
    by_cases h : k2 == k
    · simp [storePush, storeLookup, h]
    · simp [storePush, storeLookup, h, ih]

/-- Pushing onto one chat's message list leaves every other chat's entry
unchanged. -/
theorem storeLookup_push_other (st : MessagesStore) (k k2 : String) (m : MessageData)
    (h : k ≠ k2) : storeLookup (storePush st k m) k2 = storeLookup st k2 := by
  induction st with
  | nil => simp [storePush, storeLookup, h]
  | cons p rest ih =>
    obtain ⟨k3, l⟩ := p
    by_cases h3 : k3 == k
    · have : k3 = k := by simpa using h3
      subst this
      simp [storePush, storeLookup, h3, h]
    · simp [storePush, storeLookup, h3, ih]

/-- Updating a chat id that is absent from the list prepends the freshly
built entry. -/
theorem updateChat_fresh (chats : List Chat) (chatId : String) (m : MessageData)
    (hfresh : ∀ c ∈ chats, c.id ≠ chatId) :
    updateChatWithMessage chats chatId m = mkChatFromMessage chatId m :: chats := by
  have hany : (chats.any fun c => c.id == chatId) = false := by
    rw [List.any_eq_false]
    intro c hc
    simpa using hfresh c hc
  simp [updateChatWithMessage, hany]

/-- In-place update of an existing chat does not change the sequence of chat
ids. -/
theorem updateExistingChat_map_id (chats : List Chat) (chatId : String) (m : MessageData) :
    (updateExistingChat chats chatId m).map Chat.id = chats.map Chat.id := by
  induction chats with
  | nil => rfl
  | cons c rest ih =>
    by_cases h : c.id == chatId
    · simp [updateExistingChat, h]
    · simp [updateExistingChat, h, ih]

/-- A quiet poll iteration sleeps and moves to the next observation with one
unit of fuel spent. -/
theorem pollPairing_step (σ : Nat → ConnectionState) (t f : Nat) (h : pollQuiet (σ t)) :
    pollPairing σ t (f + 1) = pollPairing σ (t + 1) f := by
  obtain ⟨h1, h2, h3⟩ := h
  simp [pollPairing, h1, h2, h3]

/-- When every iteration before `t` is quiet, the poll from iteration 0 is
the poll from iteration `t` with the corresponding fuel. -/
theorem pollPairing_shift (σ : Nat → ConnectionState) (t : Nat)
    (hq : ∀ s, s < t → pollQuiet (σ s)) (ht : t ≤ maxAttempts) :
    requestPairingPoll σ = pollPairing σ t (maxAttempts - t) := by
  induction t with
  | zero => rfl
  | succ n ih =>
    have hn : requestPairingPoll σ = pollPairing σ n (maxAttempts - n) :=
      ih (fun s hs => hq s (Nat.lt_succ_of_lt hs)) (Nat.le_of_succ_le ht)
    have harith : maxAttempts - n = (maxAttempts - (n + 1)) + 1 := by
      simp only [maxAttempts] at ht ⊢
      omega
    rw [hn, harith, pollPairing_step σ n _ (hq n (Nat.lt_succ_self n))]

/-- The poll result only depends on the observations it can reach within its
fuel. -/
theorem pollPairing_congr (σ σ2 : Nat → ConnectionState) (f t : Nat)
    (h : ∀ s, t ≤ s → s ≤ t + f → σ s = σ2 s) :
    pollPairing σ t f = pollPairing σ2 t f := by
  induction f generalizing t with
  | zero =>
    have ht : σ t = σ2 t := h t le_rfl (by omega)
    simp [pollPairing, ht]
  | succ n ih =>
    have ht : σ t = σ2 t := h t le_rfl (by omega)
    have hrec : pollPairing σ (t + 1) n = pollPairing σ2 (t + 1) n :=
      ih (t + 1) (fun s h1 h2 => h s (by omega) (by omega))
    simp [pollPairing, ht, hrec]

/-- Folding a batch of messages whose chat ids are pairwise distinct and all
absent from the current list prepends the freshly built entries in reverse
batch order. -/
theorem processBatch_fresh (batch : List (String × MessageData)) (chats : List Chat)
    (hfresh : ∀ p ∈ batch, ∀ c ∈ chats, c.id ≠ p.1)
    (hnodup : (batch.map Prod.fst).Nodup) :
    processBatch chats batch =
      (batch.map fun p => mkChatFromMessage p.1 p.2).reverse ++ chats := by
  induction batch generalizing chats with
  | nil => simp [processBatch]
  | cons p rest ih =>
    obtain ⟨pid, pm⟩ := p
    have hnd : pid ∉ rest.map Prod.fst ∧ (rest.map Prod.fst).Nodup := by
      rw [List.map_cons, List.nodup_cons] at hnodup
      exact hnodup
    have hstep : updateChatWithMessage chats pid pm = mkChatFromMessage pid pm :: chats :=
      updateChat_fresh chats pid pm (fun c hc => hfresh (pid, pm) (by simp) c hc)
    have hrest : ∀ q ∈ rest, ∀ c ∈ mkChatFromMessage pid pm :: chats, c.id ≠ q.1 := by
      intro q hq c hc
      rcases List.mem_cons.mp hc with hc | hc
      · subst hc
        show ¬pid = q.1
        intro hEq
        exact hnd.1 (hEq ▸ List.mem_map_of_mem Prod.fst hq)
      · exact hfresh q (List.mem_cons_of_mem _ hq) c hc
    calc processBatch chats ((pid, pm) :: rest)
        = processBatch (mkChatFromMessage pid pm :: chats) rest := by
          simp [processBatch, hstep]
      _ = (rest.map fun p => mkChatFromMessage p.1 p.2).reverse ++
            (mkChatFromMessage pid pm :: chats) := ih _ hrest hnd.2
      _ = (((pid, pm) :: rest).map fun p => mkChatFromMessage p.1 p.2).reverse ++ chats := by
          simp

/-- Claim C9: whenever `connectionState.connected` is false, each of
`GET /api/chats`, `GET /api/chats/:chatId/messages`,
`POST /api/chats/:chatId/messages` and `GET /api/contacts` responds 503 with
`{success:false, message:"WhatsApp not connected"}`, leaves the state
unchanged, and (for the send endpoint) never invokes the protocol client; the
three read endpoints never invoke it by construction. -/
theorem disconnected_endpoints_503 (s : ServerState) (chatId : String) (body : Option String)
    (sendResult : Except String String) (now : Nat)
    (h : s.connectionState.connected = false) :
    getChatsHandler s = (.notConnected, s) ∧
    getMessagesHandler s chatId = (.notConnected, s) ∧
    sendMessageHandler s chatId body sendResult now = (.notConnected, s, false) ∧
    getContactsHandler s = (.notConnected, s) ∧
    ApiResponse.statusCode .notConnected = 503 ∧
    ApiResponse.success .notConnected = false ∧
    ApiResponse.messageText .notConnected = some "WhatsApp not connected" := by
  refine ⟨?_, ?_, ?_, ?_, rfl, rfl, rfl⟩ <;>
    simp [getChatsHandler, getMessagesHandler, sendMessageHandler, getContactsHandler, h]

/-- Witness for C9 at a concrete disconnected state. -/
theorem disconnected_endpoints_503_witness :
    getChatsHandler c9State = (.notConnected, c9State) ∧
    getMessagesHandler c9State "111@s.whatsapp.net" = (.notConnected, c9State) ∧
    sendMessageHandler c9State "111@s.whatsapp.net" (some "hi") (.ok "A1") 7 =
      (.notConnected, c9State, false) ∧
    getContactsHandler c9State = (.notConnected, c9State) :=
  ⟨(disconnected_endpoints_503 c9State "111@s.whatsapp.net" (some "hi") (.ok "A1") 7 rfl).1,
   (disconnected_endpoints_503 c9State "111@s.whatsapp.net" (some "hi") (.ok "A1") 7 rfl).2.1,
   (disconnected_endpoints_503 c9State "111@s.whatsapp.net" (some "hi") (.ok "A1") 7 rfl).2.2.1,
   (disconnected_endpoints_503 c9State "111@s.whatsapp.net" (some "hi") (.ok "A1") 7 rfl).2.2.2.1⟩

/-- Claim C10: while connected, fetching the messages of a chat id with no
cached entry responds 200 with `{success:true, messages:[]}` and leaves the
state unchanged. -/
theorem unknown_chat_empty_messages (s : ServerState) (decodedChatId : String)
    (hconn : s.connectionState.connected = true)
    (hmiss : storeLookup s.messagesStore decodedChatId = none) :
    getMessagesHandler s decodedChatId = (.okMessages [], s) ∧
    (ApiResponse.okMessages []).statusCode = 200 ∧
    (ApiResponse.okMessages []).success = true := by
  refine ⟨?_, rfl, rfl⟩
  simp [getMessagesHandler, hconn, hmiss]

/-- Witness for C10 at a concrete connected state with an empty store. -/
theorem unknown_chat_empty_messages_witness :
    getMessagesHandler c10State "zzz@s.whatsapp.net" = (.okMessages [], c10State) :=
  (unknown_chat_empty_messages c10State "zzz@s.whatsapp.net" rfl rfl).1

/-- Claim C5: while connected, sending a non-empty text whose client send
call succeeds appends exactly one record to that chat's cache — with the
client-assigned id, the original text, the server-side timestamp and
`isOutgoing:true` — leaves every other chat's cache and all other state
unchanged, and returns that record in the success response. -/
theorem send_message_appends_record (s : ServerState) (decodedChatId txt sentId : String)
    (now : Nat) (hconn : s.connectionState.connected = true) (hne : txt ≠ "") :
    ∃ record : MessageData,
      record = { id := sentId, body := txt, msgFrom := none, timestamp := now,
                 isOutgoing := true, type := none } ∧
      sendMessageHandler s decodedChatId (some txt) (.ok sentId) now =
        (.okSent record,
         { s with messagesStore := storePush s.messagesStore decodedChatId record }, true) ∧
      storeLookup (storePush s.messagesStore decodedChatId record) decodedChatId =
        some ((storeLookup s.messagesStore decodedChatId).getD [] ++ [record]) ∧
      (∀ k, k ≠ decodedChatId →
        storeLookup (storePush s.messagesStore decodedChatId record) k =
          storeLookup s.messagesStore k) ∧
      record.isOutgoing = true ∧ record.body = txt ∧ record.id = sentId ∧
      record.timestamp = now ∧ (ApiResponse.okSent record).statusCode = 200 ∧
      (ApiResponse.okSent record).success = true := by
  have hbeq : (txt == "") = false := by simpa using hne
  refine ⟨_, rfl, ?_, storeLookup_push_self _ _ _, ?_, rfl, rfl, rfl, rfl, rfl, rfl⟩
  · simp [sendMessageHandler, hconn, jsTruthyStr, hbeq]
  · intro k hk
    exact storeLookup_push_other _ decodedChatId k _ (Ne.symm hk)

/-- Witness for C5 at a concrete connected state. -/
theorem send_message_appends_record_witness :
    ∃ record : MessageData,
      record = { id := "A1", body := "hi", msgFrom := none, timestamp := 7,
                 isOutgoing := true, type := none } ∧
      sendMessageHandler c10State "111@s.whatsapp.net" (some "hi") (.ok "A1") 7 =
        (.okSent record,
         { c10State with
             messagesStore := storePush c10State.messagesStore "111@s.whatsapp.net" record },
         true) ∧
      storeLookup (storePush c10State.messagesStore "111@s.whatsapp.net" record)
          "111@s.whatsapp.net" =
        some ((storeLookup c10State.messagesStore "111@s.whatsapp.net").getD [] ++ [record]) ∧
      (∀ k, k ≠ "111@s.whatsapp.net" →
        storeLookup (storePush c10State.messagesStore "111@s.whatsapp.net" record) k =
          storeLookup c10State.messagesStore k) ∧
      record.isOutgoing = true ∧ record.body = "hi" ∧ record.id = "A1" ∧
      record.timestamp = 7 ∧ (ApiResponse.okSent record).statusCode = 200 ∧
      (ApiResponse.okSent record).success = true :=
  send_message_appends_record c10State "111@s.whatsapp.net" "hi" "A1" 7 rfl (by decide)

/-- Claim C1 counterexample: on a concrete prior state with a live client,
a failing logout makes the disconnect endpoint return 500 and leave
`connectionState`, `chats` and `messagesStore` untouched, so they are not
reset to their initial/empty values. -/
theorem disconnect_logout_failure_cex :
    disconnectHandler c1PriorState (.error "Logout failed") =
      (.serverError "Logout failed", c1PriorState) ∧
    (disconnectHandler c1PriorState (.error "Logout failed")).2.connectionState ≠
      initialConnectionState ∧
    (disconnectHandler c1PriorState (.error "Logout failed")).2.chats ≠ [] ∧
    (disconnectHandler c1PriorState (.error "Logout failed")).2.messagesStore ≠ [] ∧
    (ApiResponse.serverError "Logout failed").statusCode = 500 := by
  refine ⟨rfl, ?_, ?_, ?_, rfl⟩ <;> decide

/-- Claim C1 as amended: when the client handle is absent or its logout call
succeeds, disconnect resets `connectionState` to its initial all-false/null
value and empties both caches; when a present client's logout call fails, the
endpoint responds 500 and leaves the whole state unchanged. -/
theorem disconnect_resets_or_preserves (s : ServerState) (r : Except String Unit) :
    ((s.sock = false ∨ r = .ok ()) →
      disconnectHandler s r = (.okDisconnected "Disconnected successfully", resetServerState) ∧
      (disconnectHandler s r).2.connectionState = initialConnectionState ∧
      (disconnectHandler s r).2.chats = [] ∧
      (disconnectHandler s r).2.messagesStore = []) ∧
    (∀ e, s.sock = true → r = .error e → disconnectHandler s r = (.serverError e, s)) := by
  constructor
  · intro h
    have hd : disconnectHandler s r =
        (.okDisconnected "Disconnected successfully", resetServerState) := by
      rcases h with h | h
      · simp [disconnectHandler, h]
      · subst h
        by_cases hs : s.sock <;> simp [disconnectHandler, hs]
    refine ⟨hd, ?_, ?_, ?_⟩ <;> simp [hd, resetServerState]
  · intro e hs hr
    subst hr
    simp [disconnectHandler, hs]

/-- Witness for the amended C1 at a concrete prior state with a successful
logout. -/
theorem disconnect_resets_or_preserves_witness :
    disconnectHandler c1PriorState (.ok ()) =
      (.okDisconnected "Disconnected successfully", resetServerState) ∧
    (disconnectHandler c1PriorState (.ok ())).2.chats = [] :=
  ⟨((disconnect_resets_or_preserves c1PriorState (.ok ())).1 (Or.inr rfl)).1,
   ((disconnect_resets_or_preserves c1PriorState (.ok ())).1 (Or.inr rfl)).2.2.1⟩

/-- Claim C6: for a chat id absent from the chat list, processing two inbound
messages with that id produces exactly one entry with that id, and its
`lastMessage` and `timestamp` reflect the second message. -/
theorem chat_insert_idempotent (chats : List Chat) (chatId : String) (m1 m2 : MessageData)
    (hfresh : ∀ c ∈ chats, c.id ≠ chatId) :
    List.countP (fun c => c.id == chatId)
      (updateChatWithMessage (updateChatWithMessage chats chatId m1) chatId m2) = 1 ∧
    ∀ c ∈ updateChatWithMessage (updateChatWithMessage chats chatId m1) chatId m2,
      c.id = chatId → c.lastMessage = some ⟨m2.body, m2.timestamp⟩ ∧
        c.timestamp = m2.timestamp := by
  have h1 : updateChatWithMessage chats chatId m1 = mkChatFromMessage chatId m1 :: chats :=
    updateChat_fresh chats chatId m1 hfresh
  have hany : ((mkChatFromMessage chatId m1 :: chats).any fun c => c.id == chatId) = true := by
    simp [mkChatFromMessage]
  have h2 : updateChatWithMessage (mkChatFromMessage chatId m1 :: chats) chatId m2 =
      { mkChatFromMessage chatId m1 with
          lastMessage := some ⟨m2.body, m2.timestamp⟩, timestamp := m2.timestamp } :: chats := by
    simp [updateChatWithMessage, hany, updateExistingChat, mkChatFromMessage]
  rw [h1, h2]
  constructor
  · rw [List.countP_cons]
    have hzero : List.countP (fun c => c.id == chatId) chats = 0 := by
      rw [List.countP_eq_zero]
      intro c hc
      simpa using hfresh c hc
    simp [hzero, mkChatFromMessage]
  · intro c hc hcid
    rcases List.mem_cons.mp hc with hc | hc
    · subst hc
      exact ⟨rfl, rfl⟩
    · exact absurd hcid (hfresh c hc)

/-- Witness for C6 starting from the empty chat list. -/
theorem chat_insert_idempotent_witness :
    List.countP (fun c => c.id == "111@s.whatsapp.net")
      (updateChatWithMessage
        (updateChatWithMessage [] "111@s.whatsapp.net" c6msg1) "111@s.whatsapp.net" c6msg2) = 1 :=
  (chat_insert_idempotent [] "111@s.whatsapp.net" c6msg1 c6msg2 (by simp)).1

/-- Claim C7 counterexample: after inbound messages to chat 111 at time 1,
chat 222 at time 2 and chat 111 again at time 3 — all created from inbound
messages — the list is `[222 (timestamp 2), 111 (timestamp 3)]`: the entry
with the more recent activity appears later, refuting
most-recently-active-first ordering. -/
theorem chat_order_cex :
    c7Result.map Chat.timestamp = [2, 3] ∧
    c7Result.map Chat.id = ["222@s.whatsapp.net", "111@s.whatsapp.net"] ∧
    mostRecentlyActiveFirst c7Result = false := by
  refine ⟨?_, ?_, ?_⟩ <;> decide

/-- Claim C7 as amended: newly-seen chats are inserted at the front of the
list, and an existing chat that receives a new message is updated in place,
keeping the sequence of chat ids unchanged; consequently a batch of inbound
messages to pairwise-distinct fresh chat ids with non-decreasing timestamps
yields a most-recently-active-first list, but the ordering does not survive a
further message to an existing chat. -/
theorem chat_front_insert_and_fresh_batch_order
    (chats chats2 : List Chat) (chatId chatId2 : String) (m m2 : MessageData)
    (batch : List (String × MessageData))
    (hfresh : ∀ c ∈ chats, c.id ≠ chatId)
    (hex : ∃ c ∈ chats2, c.id = chatId2)
    (hnodup : (batch.map Prod.fst).Nodup)
    (hmono : batch.Pairwise fun p q => p.2.timestamp ≤ q.2.timestamp) :
    updateChatWithMessage chats chatId m = mkChatFromMessage chatId m :: chats ∧
    (updateChatWithMessage chats2 chatId2 m2).map Chat.id = chats2.map Chat.id ∧
    (processBatch [] batch).Pairwise (fun a b => b.timestamp ≤ a.timestamp) := by
  refine ⟨updateChat_fresh chats chatId m hfresh, ?_, ?_⟩
  · obtain ⟨c, hc, hcid⟩ := hex
    have hany : (chats2.any fun d => d.id == chatId2) = true :=
      List.any_eq_true.mpr ⟨c, hc, by simp [hcid]⟩
    simp [updateChatWithMessage, hany, updateExistingChat_map_id]
  · have hshape := processBatch_fresh batch [] (by simp) hnodup
    rw [hshape]
    rw [List.append_nil, List.pairwise_reverse, List.pairwise_map]
    exact hmono.imp fun h => h

/-- Witness for the amended C7 at concrete inputs: a fresh insert on the
empty list, an in-place update of an existing chat, and a two-message fresh
batch with increasing timestamps. -/
theorem chat_front_insert_and_fresh_batch_order_witness :
    updateChatWithMessage [] "111@s.whatsapp.net" c6msg1 =
      mkChatFromMessage "111@s.whatsapp.net" c6msg1 :: [] ∧
    (updateChatWithMessage [c7wChat] "222@s.whatsapp.net" c6msg2).map Chat.id =
      [c7wChat].map Chat.id ∧
    (processBatch [] [("a@s.whatsapp.net", c6msg1), ("b@s.whatsapp.net", c6msg2)]).Pairwise
      (fun a b => b.timestamp ≤ a.timestamp) :=
  chat_front_insert_and_fresh_batch_order [] [c7wChat] "111@s.whatsapp.net" "222@s.whatsapp.net"
    c6msg1 c6msg2 [("a@s.whatsapp.net", c6msg1), ("b@s.whatsapp.net", c6msg2)]
    (by simp) ⟨c7wChat, by simp, rfl⟩ (by decide) (by decide)

/-- Claim C2: the pairing poll performs at most 30 attempts (its result
depends only on the observations up to index `maxAttempts`, and
`maxAttempts = 30` with a 500 ms delay constant), and on the first
non-quiet iteration within the loop it checks, in priority order: a populated
pairing code (success response carrying the code), then a recorded error (a
500 carrying that message), then an already-connected state (success with no
code needed). -/
theorem pairing_poll_priority (σ σ2 : Nat → ConnectionState) (t : Nat)
    (ht : t < maxAttempts) (hq : ∀ s, s < t → pollQuiet (σ s))
    (hagree : ∀ s, s ≤ maxAttempts → σ s = σ2 s) :
    maxAttempts = 30 ∧ pollIntervalMs = 500 ∧
    (∀ c, (σ t).pairingCode = some c →
      requestPairingPoll σ = .okCode c ∧ (PairingResponse.okCode c).statusCode = 200 ∧
      (PairingResponse.okCode c).success = true) ∧
    ((σ t).pairingCode = none → ∀ e, (σ t).error = some e →
      requestPairingPoll σ = .errorResp e ∧ (PairingResponse.errorResp e).statusCode = 500) ∧
    ((σ t).pairingCode = none → (σ t).error = none → (σ t).connected = true →
      requestPairingPoll σ = .okConnected ∧ PairingResponse.okConnected.statusCode = 200 ∧
      PairingResponse.okConnected.success = true) ∧
    requestPairingPoll σ = requestPairingPoll σ2 := by
  have hshift := pollPairing_shift σ t hq (le_of_lt ht)
  have harith : maxAttempts - t = (maxAttempts - t - 1) + 1 := by
    simp only [maxAttempts] at ht ⊢
    omega
  refine ⟨rfl, rfl, ?_, ?_, ?_, ?_⟩
  · intro c hc
    refine ⟨?_, rfl, rfl⟩
    rw [hshift, harith]
    simp [pollPairing, hc]
  · intro h0 e he
    refine ⟨?_, rfl⟩
    rw [hshift, harith]
    simp [pollPairing, h0, he]
  · intro h0 h1 h2
    refine ⟨?_, rfl, rfl⟩
    rw [hshift, harith]
    simp [pollPairing, h0, h1, h2]
  · exact pollPairing_congr σ σ2 maxAttempts 0 (fun s h1 h2 => hagree s (by simpa using h2))

/-- Witness for C2 on a stream whose first observation records an error. -/
theorem pairing_poll_priority_witness :
    requestPairingPoll c2Stream = .errorResp "Connection Failure" ∧
    (PairingResponse.errorResp "Connection Failure").statusCode = 500 :=
  (pairing_poll_priority c2Stream c2Stream 0 (by decide)
    (fun s hs => absurd hs (Nat.not_lt_zero s))
    (fun s _ => rfl)).2.2.2.1 rfl "Connection Failure" rfl

/-- Claim C3: when the poll never observes a pairing code, an error, or a
connected state through all 30 attempts, the endpoint responds 408 with
`{success:false}`, and in particular neither 200 nor 500. -/
theorem pairing_poll_timeout_408 (σ : Nat → ConnectionState)
    (hcode : ∀ s, s ≤ maxAttempts → (σ s).pairingCode = none)
    (herr : ∀ s, s < maxAttempts → (σ s).error = none)
    (hconn : ∀ s, s < maxAttempts → (σ s).connected = false) :
    requestPairingPoll σ = .timeout ∧
    (requestPairingPoll σ).statusCode = 408 ∧
    (requestPairingPoll σ).success = false ∧
    (requestPairingPoll σ).statusCode ≠ 200 ∧
    (requestPairingPoll σ).statusCode ≠ 500 := by
  have hshift := pollPairing_shift σ maxAttempts
    (fun s hs => ⟨hcode s (le_of_lt hs), herr s hs, hconn s hs⟩) le_rfl
  have h30 : (σ maxAttempts).pairingCode = none := hcode maxAttempts le_rfl
  have hfin : requestPairingPoll σ = .timeout := by
    rw [hshift]
    simp [pollPairing, Nat.sub_self, h30]
  refine ⟨hfin, ?_, ?_, ?_, ?_⟩ <;>
    simp [hfin, PairingResponse.statusCode, PairingResponse.success]

/-- Witness for C3 on the always-quiet stream. -/
theorem pairing_poll_timeout_408_witness :
    requestPairingPoll c3Stream = .timeout ∧ (requestPairingPoll c3Stream).statusCode = 408 :=
  ⟨(pairing_poll_timeout_408 c3Stream (fun _ _ => rfl) (fun _ _ => rfl) (fun _ _ => rfl)).1,
   (pairing_poll_timeout_408 c3Stream (fun _ _ => rfl) (fun _ _ => rfl) (fun _ _ => rfl)).2.1⟩

/-- Claim C4: a pairing request whose phone number is missing, or has fewer
than 10 digits once non-digit characters are stripped, is rejected with a 400
`{success:false}` response before the connection phase, leaving
`connectionState` exactly as it was. -/
theorem pairing_invalid_phone_400 (cs : ConnectionState) (pn : Option String)
    (h : pn = none ∨ ∀ s, pn = some s → (cleanPhone s).length < 10) :
    ∃ msg, pairingEntry cs pn = .error (.badRequest msg, cs) ∧
      (PairingResponse.badRequest msg).statusCode = 400 ∧
      (PairingResponse.badRequest msg).success = false := by
  match pn with
  | none =>
    exact ⟨"Phone number is required", by simp [pairingEntry, jsTruthyStr], rfl, rfl⟩
  | some s =>
    by_cases hs : s = ""
    · subst hs
      exact ⟨"Phone number is required", by simp [pairingEntry, jsTruthyStr], rfl, rfl⟩
    · have hlen : (cleanPhone s).length < 10 := by
        rcases h with h | h
        · exact absurd h (by simp)
        · exact h s rfl
      have hbeq : (s == "") = false := by simpa using hs
      exact ⟨"Invalid phone number format",
        by simp [pairingEntry, jsTruthyStr, hbeq, hlen], rfl, rfl⟩

/-- Witness for C4 on the spec's own example input, the 3-digit phone number
"123". -/
theorem pairing_invalid_phone_400_witness :
    ∃ msg, pairingEntry initialConnectionState (some "123") =
        .error (.badRequest msg, initialConnectionState) ∧
      (PairingResponse.badRequest msg).statusCode = 400 ∧
      (PairingResponse.badRequest msg).success = false :=
  pairing_invalid_phone_400 initialConnectionState (some "123")
    (Or.inr fun s hs => by cases hs; decide)

/-- Claim C8: processing a live (`notify`) single-message batch appends to
the sender's cache a record whose body is the first populated field among the
plain-text content, the extended-text content and the image caption, in that
order, and is the `[Media]` placeholder when none of the three is
populated. -/
theorem inbound_body_extraction (s : ServerState) (msg : WAMessage) (mc : Option MsgContent) :
    (storeLookup (handleUpsert s [msg] "notify").messagesStore msg.keyRemoteJid =
      some ((storeLookup s.messagesStore msg.keyRemoteJid).getD [] ++ [inboundMessageData msg])) ∧
    ((inboundMessageData msg).body = extractBody msg.message) ∧
    (∀ t, mc.bind MsgContent.conversation = some t → t ≠ "" → extractBody mc = t) ∧
    (jsTruthyStr (mc.bind MsgContent.conversation) = false →
      ∀ t, mc.bind MsgContent.extendedTextMessageText = some t → t ≠ "" → extractBody mc = t) ∧
    (jsTruthyStr (mc.bind MsgContent.conversation) = false →
      jsTruthyStr (mc.bind MsgContent.extendedTextMessageText) = false →
      ∀ t, mc.bind MsgContent.imageMessageCaption = some t → t ≠ "" → extractBody mc = t) ∧
    (jsTruthyStr (mc.bind MsgContent.conversation) = false →
      jsTruthyStr (mc.bind MsgContent.extendedTextMessageText) = false →
      jsTruthyStr (mc.bind MsgContent.imageMessageCaption) = false →
      extractBody mc = "[Media]") := by
  refine ⟨?_, rfl, ?_, ?_, ?_, ?_⟩
  · simp [handleUpsert, ingestMessage, storeLookup_push_self]
  · intro t hsome hne
    have htt : jsTruthyStr (some t) = true := by simp [jsTruthyStr, hne]
    simp [extractBody, jsOr, jsOrString, hsome, htt]
  · intro h0 t hsome hne
    have htt : jsTruthyStr (some t) = true := by simp [jsTruthyStr, hne]
    simp [extractBody, jsOr, jsOrString, h0, hsome, htt]
  · intro h0 h1 t hsome hne
    have htt : jsTruthyStr (some t) = true := by simp [jsTruthyStr, hne]
    simp [extractBody, jsOr, jsOrString, h0, h1, hsome, htt]
  · intro h0 h1 h2
    simp [extractBody, jsOr, jsOrString, h0, h1, h2]

/-- Witness for C8: a content object with a populated plain-text field
extracts that text. -/
theorem inbound_body_extraction_witness :
    extractBody (some c8Content) = "hi" :=
  (inbound_body_extraction resetServerState c8Msg (some c8Content)).2.2.1 "hi" rfl (by decide)
